import Mathlib

/-!
Shallow embedding of the ai-agent repository (src/tools.py, src/tool_detector.py,
src/client.py, src/client2.py) together with theorems settling the frozen claims.

Conventions of the embedding:
* Python values that flow through tool arguments and results are modelled by the
  inductive `PyVal` (integers, strings, lists, dicts, None).  Floats are never
  exercised by any claim and are not modelled.
* A Python callable that may raise is modelled as a function into
  `Except String α`, where `Except.error e` models an exception whose `str` is `e`.
* Calls to external services (the ollama classification and chat models, the
  weather HTTP endpoint) are inputs of the embedded functions: the caller supplies
  the reply (or the exception) that the external service produced.
* The repository uses the ollama python client in its `>= 0.4` form: that is the
  only form in which the attribute accesses `r.message.content`,
  `r.message.tool_calls` and `tool_call.function.name` used by the sources work.
  In that form `Message` is a pydantic model supporting dict-style subscription
  only for its own fields, and `json.dumps` on a `Message` raises `TypeError`.
-/

namespace Agent

/-- A JSON-like Python value (the shapes that flow through tool calls here). -/
inductive PyVal where
  | int (n : Int)
  | str (s : String)
  | list (xs : List PyVal)
  | dict (kvs : List (String × PyVal))
  | noneV

mutual

/-- Python `repr` of a `PyVal` (as used by f-string interpolation of dicts).
Strings in this repository contain no quotes or escapes, so `repr` of a string
is just the string between single quotes. -/
def pyRepr : PyVal → String
  | .int n => toString n
  | .str s => "\x27" ++ s ++ "\x27"
  | .noneV => "None"
  | .list xs => "[" ++ pyReprList xs ++ "]"
  | .dict kvs => "\x7b" ++ pyReprKVs kvs ++ "\x7d"

/-- comma-separated reprs of list elements. -/
def pyReprList : List PyVal → String
  | [] => ""
  | [x] => pyRepr x
  | x :: xs => pyRepr x ++ ", " ++ pyReprList xs

/-- comma-separated reprs of dict items. -/
def pyReprKVs : List (String × PyVal) → String
  | [] => ""
  | [kv] => "\x27" ++ kv.1 ++ "\x27: " ++ pyRepr kv.2
  | kv :: kvs => "\x27" ++ kv.1 ++ "\x27: " ++ pyRepr kv.2 ++ ", " ++ pyReprKVs kvs

end

/-- Python `str` of a `PyVal`: a string is rendered without quotes, everything
else as its `repr`. -/
def pyStr : PyVal → String
  | .str s => s
  | v => pyRepr v

/-- Python `+` on the values of `PyVal`: integer addition, string and list
concatenation; every other combination raises `TypeError`. -/
def pyAdd : PyVal → PyVal → Except String PyVal
  | .int a, .int b => .ok (.int (a + b))
  | .str a, .str b => .ok (.str (a ++ b))
  | .list a, .list b => .ok (.list (a ++ b))
  | _, _ => .error "TypeError: unsupported operand type(s) for +"

/-- Python dict subscription `d[k]` for string keys; `KeyError` when absent,
`TypeError` when the value is not a dict. -/
def pyGetItem (v : PyVal) (key : String) : Except String PyVal :=
  match v with
  | .dict kvs =>
    match kvs.find? (fun kv => kv.1 == key) with
    | some kv => .ok kv.2
    | none => .error ("KeyError: \x27" ++ key ++ "\x27")
  | _ => .error "TypeError: value is not subscriptable by a string key"

/-- Whether the character list starts with the pattern. -/
def charsBeginWith : List Char → List Char → Bool
  | [], _ => true
  | _ :: _, [] => false
  | p :: ps, c :: cs => p == c && charsBeginWith ps cs

/-- Whether the pattern occurs anywhere in the character list. -/
def charsHave (pat : List Char) : List Char → Bool
  | [] => charsBeginWith pat []
  | c :: cs => charsBeginWith pat (c :: cs) || charsHave pat cs

/-- Substring test used to model Python `s.find(pat) != -1` (and `in` on
strings): whether the pattern occurs as a substring. -/
def strHasSub (s pat : String) : Bool :=
  charsHave pat.data s.data

/-- Python `key in v`: dict key membership, substring test on strings, element
membership on lists; `TypeError` otherwise. -/
def pyHasKey (v : PyVal) (key : String) : Except String Bool :=
  match v with
  | .dict kvs => .ok (kvs.any (fun kv => kv.1 == key))
  | .list xs =>
    -- Python `==` between a string and a non-string element is `False`
    .ok (xs.any (fun x => match x with | .str s => s == key | _ => false))
  | .str s => .ok (strHasSub s key)
  | _ => .error "TypeError: argument is not iterable"

/-- A keyword-argument mapping, as carried by a tool-call directive. -/
abbrev Args := List (String × PyVal)

/-- A registered tool callable: keyword arguments in, either a value or a raised
exception out. -/
abbrev ToolFn := Args → Except String PyVal

/-- Python keyword binding `f(**kwargs)` for a function whose parameters are
exactly `params`: succeeds iff the argument keys are exactly the parameters
(each bound once); any mismatch raises `TypeError` at the call site. -/
def bindsExactly (kwargs : Args) (params : List String) : Bool :=
  params.all (fun p => (kwargs.filter (fun kv => kv.1 == p)).length == 1) &&
    kwargs.all (fun kv => params.contains kv.1)

/-! ## src/tools.py -/

/-- `add_numbers(first, second)` returns the exact sum of its arguments. -/
def add_numbers (first second : Int) : Int := first + second

/-- Representative text of the `TypeError` Python raises when keyword binding of
`add_numbers(**kwargs)` fails (the interpreter wording varies per mismatch). -/
def addNumbersBindError : String :=
  "TypeError: add_numbers() received an invalid set of keyword arguments"

/-- `add_numbers` as invoked through `f(**tool_args)`: bind the keywords, then
apply Python `+` to the two bound values (the `int` annotations are unchecked). -/
def add_numbers_callable : ToolFn := fun kwargs =>
  if bindsExactly kwargs ["first", "second"] then
    match kwargs.find? (fun kv => kv.1 == "first"),
          kwargs.find? (fun kv => kv.1 == "second") with
    | some a, some b => pyAdd a.2 b.2
    | _, _ => .error addNumbersBindError
  else .error addNumbersBindError

/-- Body of `get_weather` from the `data = response.json()` point on: checks for
the `current_weather` key, builds the result dict from its fields (a missing
field raises `KeyError`, caught by the surrounding handler). -/
def get_weather_body (data : PyVal) : Except String PyVal := do
  let has ← pyHasKey data "current_weather"
  if has then
    let weather ← pyGetItem data "current_weather"
    let t ← pyGetItem weather "temperature"
    let w ← pyGetItem weather "windspeed"
    let c ← pyGetItem weather "weathercode"
    pure (.dict [("temperature", .str (pyStr t ++ "°C")),
                 ("windspeed", .str (pyStr w ++ " km/h")),
                 ("weather_code", c)])
  else
    pure (.dict [("error", .str "Weather data not available for the specified location.")])

/-- `get_weather`: the HTTP request and JSON decoding are external, supplied as
`resp` (`Except.error` models a raised exception).  The function catches every
exception and returns an error dict, so it never raises. -/
def get_weather (resp : Except String PyVal) : PyVal :=
  match resp.bind get_weather_body with
  | .ok v => v
  | .error e => .dict [("error", .str e)]

/-- `get_weather` as invoked through `f(**tool_args)`: binding to the parameters
`latitude, longitude` happens at the call site and raises `TypeError` on
mismatch (outside the function body's handler); `net` models the network,
mapping the bound arguments to the decoded JSON response (or an exception). -/
def get_weather_callable (net : Args → Except String PyVal) : ToolFn := fun kwargs =>
  if bindsExactly kwargs ["latitude", "longitude"] then
    .ok (get_weather (net kwargs))
  else .error "TypeError: get_weather() received an invalid set of keyword arguments"

/-- `tools_json`: the static schema descriptors, verbatim. -/
def tools_json : List PyVal :=
  [ .dict [("name", .str "add_numbers"),
           ("description", .str "Add two numbers together"),
           ("parameters", .dict
             [("type", .str "object"),
              ("properties", .dict
                [("first", .dict [("type", .str "integer"),
                                  ("description", .str "First number.")]),
                 ("second", .dict [("type", .str "integer"),
                                   ("description", .str "Second number")])]),
              ("required", .list [.str "first", .str "second"])])],
    .dict [("name", .str "get_weather"),
           ("description", .str "Retrieve the current weather for a specified location."),
           ("parameters", .dict
             [("type", .str "object"),
              ("properties", .dict
                [("location", .dict [("type", .str "string"),
                                     ("description", .str "Location of where to get the current weather for.")])]),
              ("required", .list [.str "location"])])] ]

/-- f-string rendering of a subscription that is known to succeed (the keys of
`tools_json` entries exist); the unreachable error branch yields the error text. -/
def fmtItem (v : PyVal) (key : String) : String :=
  match pyGetItem v key with
  | .ok x => pyStr x
  | .error e => e

/-- `ToolManager.get_available_tools`: newline-joined, per descriptor
`f"Function (name) to (description):\n(repr of the descriptor)"`. -/
def get_available_tools : String :=
  String.intercalate "\n"
    (tools_json.map (fun tool =>
      "Function " ++ fmtItem tool "name" ++ " to " ++ fmtItem tool "description" ++
        ":\n" ++ pyStr tool))

/-- `ToolManager.execute_tool(tool_name, **kwargs)`: look up the callable; a
missing name yields a descriptive not-found string, a raising callable is caught
and converted to a descriptive error string; otherwise the callable's value is
returned.  The total return type shows it never raises. -/
def execute_tool (available_functions : String → Option ToolFn)
    (tool_name : String) (kwargs : Args) : PyVal :=
  match available_functions tool_name with
  | none => .str ("Error: Tool \x27" ++ tool_name ++ "\x27 not found.")
  | some f =>
    match f kwargs with
    | .ok v => v
    | .error e => .str ("Error executing tool \x27" ++ tool_name ++ "\x27: " ++ e)

/-! ## The ollama data shapes used by the sources -/

/-- The `function` field of an ollama tool-call directive. -/
structure ToolCallFunction where
  name : String
  arguments : Args

/-- A structured tool-call directive emitted by the classification model. -/
structure ToolCall where
  function : ToolCallFunction

/-- An ollama `Message` as constructed and stored by this repository: the
`role`/`content` fields always hold strings here, `tool_calls` is carried along
when a model reply is folded into the transcript. -/
structure Message where
  role : String
  content : String
  tool_calls : List ToolCall

/-- A field value produced by subscripting a `Message`. -/
inductive MsgField where
  | str (s : String)
  | calls (cs : List ToolCall)

/-- Dict-style subscription on an ollama `Message` (pydantic
`SubscriptableBaseModel.__getitem__`): returns the named field, and raises
`KeyError` for any key that is not a field of `Message`. -/
def Message.getItem (x : Message) (key : String) : Except String MsgField :=
  match key with
  | "role" => .ok (.str x.role)
  | "content" => .ok (.str x.content)
  | "tool_calls" => .ok (.calls x.tool_calls)
  | _ => .error ("KeyError: \x27" ++ key ++ "\x27")

/-- Subscripting a `Message` field value by a string key: the only field values
are strings and tool-call lists, and Python rejects string subscripts on both. -/
def MsgField.getItem (v : MsgField) (key : String) : Except String MsgField :=
  match v, key with
  | .str _, _ => .error "TypeError: string indices must be integers"
  | .calls _, _ => .error "TypeError: list indices must be integers or slices"

/-- The classification model's reply message (`r.message`): free text content
(nullable) and the emitted tool-call directives (`None` is modelled as `[]`,
which Python treats identically in the `if r.message.tool_calls:` guard). -/
structure ChatReply where
  role : String
  content : Option String
  tool_calls : List ToolCall

/-- Text of the `TypeError` raised by `json.dumps` on an ollama `Message`. -/
def jsonNotSerializableText : String := "Object of type Message is not JSON serializable"

/-- `json.dumps` applied to a list of ollama `Message` objects: the empty list
serializes to `"[]"`; any `Message` element makes `json.dumps` raise
`TypeError` (pydantic models are not JSON serializable). -/
def jsonDumpsMessages : List Message → Except String String
  | [] => .ok "[]"
  | _ :: _ => .error jsonNotSerializableText

/-! ## src/tool_detector.py -/

/-- The guard on line 48 of tool_detector.py:
`r.message.content and r.message.content.find("INFO_REQ") != -1`
(`None` and the empty string are falsy). -/
def contentHasInfoReq : Option String → Bool
  | none => false
  | some c => (!(c == "")) && strHasSub c "INFO_REQ"

/-- The loop over `r.message.tool_calls`: each directive's callable is looked up
directly in `available_functions` (NOT through `execute_tool`); a missing
callable is skipped by the `if function_to_call:` guard; `function_to_call(**tool_args)`
raising propagates out of the loop (to the `except` of `detect_tool`); a
successful call appends `Message(role="tool", content=str(output))`. -/
def runToolCalls (avail : String → Option ToolFn) :
    List ToolCall → List Message → Except String (List Message)
  | [], messages => .ok messages
  | tc :: rest, messages =>
    match avail tc.function.name with
    | none => runToolCalls avail rest messages
    | some f =>
      match f tc.function.arguments with
      | .error e => .error e
      | .ok output =>
        runToolCalls avail rest (messages ++ [Message.mk "tool" (pyStr output) []])

/-- `ToolDetector.detect_tool(user_input)`.  The classification call is
external: `chatResult` is its outcome (`Except.error e` models an exception with
text `e`, including network errors).  Everything inside the `try` that raises —
the chat call, a raising tool callable, and the `json.dumps` logging of a
non-empty result list — is caught by the `except`, which returns a single
`tool`-role message whose content is the error text.  `user_input` only shapes
the request sent to the external model. -/
def detect_tool (avail : String → Option ToolFn) (user_input : String)
    (chatResult : Except String ChatReply) : List Message :=
  match chatResult with
  | .error e => [Message.mk "tool" e []]
  | .ok r =>
    if contentHasInfoReq r.content then
      [Message.mk r.role (r.content.getD "") r.tool_calls]
    else
      match runToolCalls avail r.tool_calls [] with
      | .error e => [Message.mk "tool" e []]
      | .ok messages =>
        match jsonDumpsMessages messages with
        | .error e => [Message.mk "tool" e []]
        | .ok _ => messages

/-! ## src/client.py — AsyncTranscriptionProcessor -/

/-- The initial persona content of client.py (lines 24-30): the literal parts
are adjacent string constants (no space before "You have"), the f-string part
interpolates `get_available_tools()`. -/
def systemPersonaContent : String :=
  "You are an AI assistant primarily for chatting. " ++
  "Start the chat with \x27Hey, how are you doing?\x27. " ++
  "Always respond to the user and keep answers short (max 3-5 sentences). " ++
  "If needed, ask the user to provide more information." ++
  "You have these tools, which are called by a different model: " ++ get_available_tools

/-- The single system message the transcript starts with. -/
def systemPersona : Message := Message.mk "system" systemPersonaContent []

/-- Outcome of the streamed primary-model call: either a finite chunk sequence
completing normally, or some chunks followed by a raised exception (`chunks` may
be empty: the call failed before streaming). -/
inductive StreamResult where
  | ok (chunks : List String)
  | raise (chunks : List String) (err : String)

/-- Result of one `process_message` run: the transcript afterwards, the
exception that escaped `process_message` (if any), and the process-level error
it printed (if any). -/
structure ProcResult where
  transcript : List Message
  uncaught : Option String
  logged : Option String

/-- The `[Process Error]` line printed by the `except` of the chat block. -/
def processErrText (e : String) : String :=
  "[Process Error] An error occurred while processing the message: " ++ e

/-- The `try` block around the primary-model call (client.py lines 99-119): on
success the concatenated chunks are appended as one assistant message; any
exception (before or mid-stream) is caught, logged, and nothing is appended. -/
def runChat (msgs : List Message) (stream : StreamResult) : ProcResult :=
  match stream with
  | .ok chunks =>
    { transcript := msgs ++ [Message.mk "assistant" (String.join chunks) []],
      uncaught := none, logged := none }
  | .raise _ e =>
    { transcript := msgs, uncaught := none, logged := some (processErrText e) }

/-- The loop of client.py lines 88-90: each tool-output message is appended to
the transcript, then `string_out += f"(x['message']['content'])\n"` subscripts
the message by the key `"message"`, which is not a `Message` field. -/
def toolOutputLoop (msgs : List Message) (string_out : String) :
    List Message → Except (List Message × String) (List Message × String)
  | [] => .ok (msgs, string_out)
  | x :: rest =>
    let msgs1 := msgs ++ [x]
    match (x.getItem "message").bind (fun v => v.getItem "content") with
    | .error e => .error (msgs1, e)
    | .ok (.str s) => toolOutputLoop msgs1 (string_out ++ s ++ "\n") rest
    | .ok (.calls _) => toolOutputLoop msgs1 string_out rest

/-- The final system prompt built from the accumulated tool output. -/
def finalPromptText (string_out : String) : String :=
  "Using the tool\x27s output below, provide a concise and relevant response to the user." ++
  "\n\nTool Output:" ++ "\n" ++ string_out

/-- `AsyncTranscriptionProcessor.process_message` of client.py.  The user
message is appended; `self.tool_detector` is always set, so `detect_tool` is
always consulted (its external classification call outcome is `detectorReply`);
a non-empty detection result enters the tool-output loop (whose subscription of
a `Message` by `"message"` raises, escaping `process_message`, since there is no
`try` around it); an empty one goes straight to the primary-model call, whose
failures are caught and logged. -/
def process_message (avail : String → Option ToolFn) (chat_messages : List Message)
    (message : String) (detectorReply : Except String ChatReply)
    (stream : StreamResult) : ProcResult :=
  let msgs := chat_messages ++ [Message.mk "user" message []]
  let tools_output := detect_tool avail message detectorReply
  match tools_output with
  | [] => runChat msgs stream
  | x :: rest =>
    match toolOutputLoop msgs "" (x :: rest) with
    | .error (msgs1, e) => { transcript := msgs1, uncaught := some e, logged := none }
    | .ok (msgs1, string_out) =>
      runChat (msgs1 ++ [Message.mk "system" (finalPromptText string_out) []]) stream

/-! ## src/client2.py — the second AsyncTranscriptionProcessor variant -/

/-- The unbound-local error raised by client2.py line 100 when detection yields
no messages: `final_prompt` was only assigned inside `if tools_output:`
(Python 3.11+ wording). -/
def finalPromptErrText : String :=
  "cannot access local variable \x27final_prompt\x27 where it is not associated with a value"

/-- The name error raised by client2.py line 98: the f-string references
`tool_output`, a name never assigned anywhere in the function. -/
def toolOutputErrText : String :=
  "name \x27tool_output\x27 is not defined"

/-- `AsyncTranscriptionProcessor.process_message` of client2.py.  `configured`
is the truth of `self.tool_detector and self.tool_manager`.  When configured:
a non-empty detection result has all its messages appended (plain appends, no
string building) and then the `final_prompt` f-string evaluates the undefined
name `tool_output` and raises; an empty result falls through to line 100, which
reads the never-assigned local `final_prompt` and raises.  Either way the
primary model is never reached.  Unconfigured, it goes straight to the chat
block. -/
def process_message2 (avail : String → Option ToolFn) (configured : Bool)
    (chat_messages : List Message) (message : String)
    (detectorReply : Except String ChatReply) (stream : StreamResult) : ProcResult :=
  let msgs := chat_messages ++ [Message.mk "user" message []]
  if configured then
    let tools_output := detect_tool avail message detectorReply
    match tools_output with
    | [] => { transcript := msgs, uncaught := some finalPromptErrText, logged := none }
    | x :: rest =>
      { transcript := msgs ++ (x :: rest), uncaught := some toolOutputErrText,
        logged := none }
  else
    runChat msgs stream

/-! ## The queue / worker / shutdown state machine of client.py

The processor owns a FIFO `task_queue` (with asyncio's unfinished-task counter
feeding `join`), a `shutdown_event`, the background `worker` task and the
transcript.  We model the reachable configurations as a transition system.
Enqueues arrive from the transcription bridge; per the scenario of the claims
(shutdown is invoked after the messages have been enqueued, and §4.3 of the
spec: during draining "the owner is expected to stop producing"), the enqueue
step fires only before shutdown has been requested.  The worker body
(`get` → `process_message` → `task_done`) contains no interior await point
(`detect_tool` and the chat stream are synchronous calls), so one iteration is
one atomic step; `except Exception` makes a raising iteration skip `task_done`
and continue the loop. -/

/-- Observable events, newest first in the recorded trace.  `i` is the index of
the worker iteration (number of previously finished iterations). -/
inductive Ev where
  | enq (m : String)
  | deq (i : Nat) (m : String)
  | detect (i : Nat) (m : String)
  | model (i : Nat) (m : String)
  | fin (i : Nat) (m : String) (ok : Bool)

/-- Number of finished worker iterations recorded in a trace. -/
def finCount : List Ev → Nat
  | [] => 0
  | .fin _ _ _ :: t => finCount t + 1
  | _ :: t => finCount t

/-- Control state of the worker task. -/
inductive WPhase where
  | notStarted
  | top
  | waiting
  | exited
  | cancelled
deriving DecidableEq

/-- Progress of the `shutdown` coroutine. -/
inductive SPhase where
  | notCalled
  | joining
  | joined
  | done
deriving DecidableEq

/-- A configuration of one `AsyncTranscriptionProcessor` session. -/
structure St where
  transcript : List Message
  queued : List String
  enqueued : List String
  handled : List (String × Bool)
  unfinished : Nat
  workerPhase : WPhase
  shutdownSet : Bool
  shutdownPhase : SPhase
  trace : List Ev

/-- The configuration right after `__init__`. -/
def initSt : St :=
  { transcript := [systemPersona], queued := [], enqueued := [], handled := [],
    unfinished := 0, workerPhase := .notStarted, shutdownSet := false,
    shutdownPhase := .notCalled, trace := [] }

/-- Effect of `enqueue_message`: FIFO put, unfinished-task counter up. -/
def enqSt (s : St) (m : String) : St :=
  { s with queued := s.queued ++ [m], enqueued := s.enqueued ++ [m],
           unfinished := s.unfinished + 1, trace := Ev.enq m :: s.trace }

/-- Events of one worker iteration, newest first: the dequeue, the detector
call, the primary-model call when the iteration reaches it (exactly the
iterations whose `process_message` does not raise), and the completion marker. -/
def procEvents (i : Nat) (m : String) (ok : Bool) : List Ev :=
  match ok with
  | true => [Ev.fin i m true, Ev.model i m, Ev.detect i m, Ev.deq i m]
  | false => [Ev.fin i m false, Ev.detect i m, Ev.deq i m]

/-- Effect of one full worker iteration on message `m`: run `process_message`;
when it returns normally, `task_done` decrements the unfinished counter; when it
raises, `except Exception` logs and continues, leaving the counter untouched. -/
def procSt (avail : String → Option ToolFn) (s : St) (m : String) (rest : List String)
    (reply : Except String ChatReply) (stream : StreamResult) : St :=
  let r := process_message avail s.transcript m reply stream
  let ok := r.uncaught.isNone
  { transcript := r.transcript, queued := rest, enqueued := s.enqueued,
    handled := s.handled ++ [(m, ok)],
    unfinished := if ok then s.unfinished - 1 else s.unfinished,
    workerPhase := .top, shutdownSet := s.shutdownSet,
    shutdownPhase := s.shutdownPhase,
    trace := procEvents s.handled.length m ok ++ s.trace }

/-- `worker_task.cancel()`: a live worker coroutine is cancelled; a worker that
already returned (or was never started, `if self.worker_task:`) is not. -/
def cancelPhase : WPhase → WPhase
  | .notStarted => .notStarted
  | .exited => .exited
  | _ => .cancelled

/-- One interleaved step of the session: a bridge enqueue, a worker action, or a
shutdown action. -/
inductive Step (avail : String → Option ToolFn) : St → St → Prop where
  | enq (s : St) (m : String) (h : s.shutdownPhase = .notCalled) :
      Step avail s (enqSt s m)
  | startWorker (s : St) (h : s.workerPhase = .notStarted) :
      Step avail s { s with workerPhase := .top }
  | checkStop (s : St) (h : s.workerPhase = .top) (hs : s.shutdownSet = true) :
      Step avail s { s with workerPhase := .exited }
  | checkGo (s : St) (h : s.workerPhase = .top) (hs : s.shutdownSet = false) :
      Step avail s { s with workerPhase := .waiting }
  | proc (s : St) (m : String) (rest : List String)
      (reply : Except String ChatReply) (stream : StreamResult)
      (h : s.workerPhase = .waiting) (hq : s.queued = m :: rest) :
      Step avail s (procSt avail s m rest reply stream)
  | shut (s : St) (h : s.shutdownPhase = .notCalled) :
      Step avail s { s with shutdownSet := true, shutdownPhase := .joining }
  | join (s : St) (h : s.shutdownPhase = .joining) (h0 : s.unfinished = 0) :
      Step avail s { s with shutdownPhase := .joined }
  | cancel (s : St) (h : s.shutdownPhase = .joined) :
      Step avail s { s with shutdownPhase := .done,
                            workerPhase := cancelPhase s.workerPhase }

/-- Configurations reachable from `__init__` under the step relation. -/
inductive Reachable (avail : String → Option ToolFn) : St → Prop where
  | init : Reachable avail initSt
  | step {s s' : St} : Reachable avail s → Step avail s s' → Reachable avail s'

/-! ## Evaluation lemmas for `process_message` -/

/-- The text of the `KeyError` raised by `x['message']` on an ollama `Message`. -/
def msgKeyErrText : String := "KeyError: \x27message\x27"

theorem Message.getItem_message (x : Message) :
    x.getItem "message" = Except.error msgKeyErrText := rfl

theorem toolOutputLoop_cons (msgs : List Message) (so : String) (x : Message)
    (rest : List Message) :
    toolOutputLoop msgs so (x :: rest) = .error (msgs ++ [x], msgKeyErrText) := by
  simp [toolOutputLoop, Message.getItem_message, Except.bind]

theorem runChat_uncaught (msgs : List Message) (stream : StreamResult) :
    (runChat msgs stream).uncaught = none := by
  cases stream <;> rfl

theorem process_message_of_detect_nil {avail : String → Option ToolFn}
    {m : String} {reply : Except String ChatReply}
    (cm : List Message) (stream : StreamResult)
    (h : detect_tool avail m reply = []) :
    process_message avail cm m reply stream =
      runChat (cm ++ [Message.mk "user" m []]) stream := by
  simp [process_message, h]

theorem process_message_of_detect_cons {avail : String → Option ToolFn}
    {m : String} {reply : Except String ChatReply} {x : Message} {rest : List Message}
    (cm : List Message) (stream : StreamResult)
    (h : detect_tool avail m reply = x :: rest) :
    process_message avail cm m reply stream =
      { transcript := cm ++ [Message.mk "user" m [], x],
        uncaught := some msgKeyErrText, logged := none } := by
  simp [process_message, h, toolOutputLoop_cons]

theorem process_message_extends (avail : String → Option ToolFn)
    (cm : List Message) (m : String) (reply : Except String ChatReply)
    (stream : StreamResult) :
    ∃ d, (process_message avail cm m reply stream).transcript = cm ++ d := by
  cases hd : detect_tool avail m reply with
  | nil =>
    rw [process_message_of_detect_nil cm stream hd]
    cases stream with
    | ok chunks =>
      exact ⟨[Message.mk "user" m [], Message.mk "assistant" (String.join chunks) []],
        by simp [runChat]⟩
    | raise chunks e => exact ⟨[Message.mk "user" m []], rfl⟩
  | cons x rest =>
    rw [process_message_of_detect_cons cm stream hd]
    exact ⟨_, rfl⟩

/-! ## The session invariant -/

/-- Number of worker iterations that ended in a raised (and worker-logged)
exception — exactly the iterations that skipped `task_done`. -/
def failedCount : List (String × Bool) → Nat
  | [] => 0
  | p :: t => (if p.2 then 0 else 1) + failedCount t

theorem failedCount_append_single (h : List (String × Bool)) (m : String) (ok : Bool) :
    failedCount (h ++ [(m, ok)]) = failedCount h + (if ok then 0 else 1) := by
  induction h with
  | nil => simp [failedCount]
  | cons p t ih =>
    simp only [List.cons_append, failedCount, List.append_eq]
    rw [ih]
    omega

theorem failedCount_zero_all {h : List (String × Bool)} (hz : failedCount h = 0) :
    ∀ p ∈ h, p.2 = true := by
  induction h with
  | nil => intro p hp; cases hp
  | cons q t ih =>
    intro p hp
    rw [failedCount] at hz
    cases hq : q.2 with
    | false => rw [hq] at hz; simp at hz
    | true =>
      rw [hq] at hz; simp at hz
      cases hp with
      | head => exact hq
      | tail _ hmem => exact ih hz p hmem

theorem finCount_procEvents (i : Nat) (m : String) (ok : Bool) (tr : List Ev) :
    finCount (procEvents i m ok ++ tr) = finCount tr + 1 := by
  cases ok <;> simp [procEvents, finCount]

theorem suffix_cons_elim {α : Type _} {a x : α} {t l : List α}
    (h : List.IsSuffix (a :: t) (x :: l)) :
    (a = x ∧ t = l) ∨ List.IsSuffix (a :: t) l := by
  obtain ⟨p, hp⟩ := h
  cases p with
  | nil => injection hp with h1 h2; exact Or.inl ⟨h1, h2⟩
  | cons y p' =>
    injection hp with h1 h2
    exact Or.inr ⟨p', h2⟩

theorem not_suffix_cons_nil {α : Type _} {a : α} {t : List α} :
    ¬ List.IsSuffix (a :: t) [] := by
  rintro ⟨p, hp⟩
  simpa using congrArg List.length hp

theorem head?_append_some {α : Type _} {l : List α} {x : α} (d : List α)
    (h : l.head? = some x) : (l ++ d).head? = some x := by
  cases l with
  | nil => simp at h
  | cons a t => simpa using h

/-- The inductive session invariant: FIFO accounting between the arrival list,
the worker's finished iterations and the queue; the unfinished-task counter;
trace well-formation (the detector call of an iteration precedes its model
call, and iteration `i` dequeues only after `i` finished iterations); and the
drain guarantees once `join` has returned. -/
structure Inv (s : St) : Prop where
  fifo : s.enqueued = s.handled.map Prod.fst ++ s.queued
  unfin : s.unfinished = s.queued.length + failedCount s.handled
  fins : finCount s.trace = s.handled.length
  dbm : ∀ i m t, List.IsSuffix (Ev.model i m :: t) s.trace → Ev.detect i m ∈ t
  daf : ∀ i m t, List.IsSuffix (Ev.deq i m :: t) s.trace → finCount t = i
  drained : s.shutdownPhase = .joined ∨ s.shutdownPhase = .done →
    s.queued = [] ∧ failedCount s.handled = 0
  cancelDone : s.workerPhase = .cancelled → s.shutdownPhase = .done
  headPersona : s.transcript.head? = some systemPersona

theorem inv_init : Inv initSt := by
  refine ⟨rfl, rfl, rfl, ?_, ?_, ?_, ?_, rfl⟩
  · intro i m t h; exact absurd h not_suffix_cons_nil
  · intro i m t h; exact absurd h not_suffix_cons_nil
  · rintro (h | h) <;> simp [initSt] at h
  · intro h; simp [initSt] at h

/-- Invariance under steps that only move the worker/shutdown phases. -/
theorem inv_phase_update {s : St} (hI : Inv s) (wp : WPhase) (sb : Bool) (sp : SPhase)
    (hdrain : sp = .joined ∨ sp = .done → s.queued = [] ∧ failedCount s.handled = 0)
    (hcd : wp = .cancelled → sp = .done) :
    Inv { s with workerPhase := wp, shutdownSet := sb, shutdownPhase := sp } :=
  ⟨hI.fifo, hI.unfin, hI.fins, hI.dbm, hI.daf, hdrain, hcd, hI.headPersona⟩

/-- Invariance under one full worker iteration. -/
theorem inv_proc_aux {s : St} (hI : Inv s) (m : String) (rest : List String)
    (hq : s.queued = m :: rest) (tr : List Message) (ok : Bool)
    (htr : ∃ d, tr = s.transcript ++ d) :
    Inv { transcript := tr, queued := rest, enqueued := s.enqueued,
          handled := s.handled ++ [(m, ok)],
          unfinished := if ok then s.unfinished - 1 else s.unfinished,
          workerPhase := .top, shutdownSet := s.shutdownSet,
          shutdownPhase := s.shutdownPhase,
          trace := procEvents s.handled.length m ok ++ s.trace } := by
  obtain ⟨d, hd⟩ := htr
  refine ⟨?_, ?_, ?_, ?_, ?_, ?_, ?_, ?_⟩
  · show s.enqueued = (s.handled ++ [(m, ok)]).map Prod.fst ++ rest
    rw [hI.fifo, hq]
    simp
  · show (if ok then s.unfinished - 1 else s.unfinished) =
      rest.length + failedCount (s.handled ++ [(m, ok)])
    rw [hI.unfin, hq, failedCount_append_single]
    simp only [List.length_cons]
    cases ok <;> simp <;> omega
  · show finCount (procEvents s.handled.length m ok ++ s.trace) =
      (s.handled ++ [(m, ok)]).length
    rw [finCount_procEvents, hI.fins]
    simp
  · intro i' m' t hsuf
    cases ok with
    | true =>
      simp only [procEvents, List.cons_append, List.nil_append] at hsuf
      rcases suffix_cons_elim hsuf with ⟨h1, _⟩ | hsuf1
      · cases h1
      rcases suffix_cons_elim hsuf1 with ⟨h1, h2⟩ | hsuf2
      · injection h1 with hi hm
        subst hi; subst hm; subst h2
        exact List.mem_cons_self _ _
      rcases suffix_cons_elim hsuf2 with ⟨h1, _⟩ | hsuf3
      · cases h1
      rcases suffix_cons_elim hsuf3 with ⟨h1, _⟩ | hsuf4
      · cases h1
      exact hI.dbm i' m' t hsuf4
    | false =>
      simp only [procEvents, List.cons_append, List.nil_append] at hsuf
      rcases suffix_cons_elim hsuf with ⟨h1, _⟩ | hsuf1
      · cases h1
      rcases suffix_cons_elim hsuf1 with ⟨h1, _⟩ | hsuf2
      · cases h1
      rcases suffix_cons_elim hsuf2 with ⟨h1, _⟩ | hsuf3
      · cases h1
      exact hI.dbm i' m' t hsuf3
  · intro i' m' t hsuf
    cases ok with
    | true =>
      simp only [procEvents, List.cons_append, List.nil_append] at hsuf
      rcases suffix_cons_elim hsuf with ⟨h1, _⟩ | hsuf1
      · cases h1
      rcases suffix_cons_elim hsuf1 with ⟨h1, _⟩ | hsuf2
      · cases h1
      rcases suffix_cons_elim hsuf2 with ⟨h1, _⟩ | hsuf3
      · cases h1
      rcases suffix_cons_elim hsuf3 with ⟨h1, h2⟩ | hsuf4
      · injection h1 with hi hm
        subst hi; subst h2
        exact hI.fins
      exact hI.daf i' m' t hsuf4
    | false =>
      simp only [procEvents, List.cons_append, List.nil_append] at hsuf
      rcases suffix_cons_elim hsuf with ⟨h1, _⟩ | hsuf1
      · cases h1
      rcases suffix_cons_elim hsuf1 with ⟨h1, _⟩ | hsuf2
      · cases h1
      rcases suffix_cons_elim hsuf2 with ⟨h1, h2⟩ | hsuf3
      · injection h1 with hi hm
        subst hi; subst h2
        exact hI.fins
      exact hI.daf i' m' t hsuf3
  · intro hph
    obtain ⟨hnil, _⟩ := hI.drained hph
    rw [hnil] at hq
    cases hq
  · intro hc
    cases hc
  · show tr.head? = some systemPersona
    rw [hd]
    exact head?_append_some d hI.headPersona

/-- Every step preserves the invariant. -/
theorem inv_step {avail : String → Option ToolFn} {s s' : St}
    (hI : Inv s) (hs : Step avail s s') : Inv s' := by
  cases hs with
  | enq m h =>
    refine ⟨?_, ?_, ?_, ?_, ?_, ?_, ?_, ?_⟩
    · show s.enqueued ++ [m] = s.handled.map Prod.fst ++ (s.queued ++ [m])
      rw [hI.fifo, List.append_assoc]
    · show s.unfinished + 1 = (s.queued ++ [m]).length + failedCount s.handled
      rw [hI.unfin]
      simp
      omega
    · show finCount (Ev.enq m :: s.trace) = s.handled.length
      simpa [finCount] using hI.fins
    · intro i m' t hsuf
      rcases suffix_cons_elim hsuf with ⟨h1, _⟩ | hsuf1
      · cases h1
      · exact hI.dbm i m' t hsuf1
    · intro i m' t hsuf
      rcases suffix_cons_elim hsuf with ⟨h1, _⟩ | hsuf1
      · cases h1
      · exact hI.daf i m' t hsuf1
    · intro hph
      exfalso
      rcases hph with h2 | h2
      · have h3 : s.shutdownPhase = SPhase.joined := h2
        rw [h] at h3
        cases h3
      · have h3 : s.shutdownPhase = SPhase.done := h2
        rw [h] at h3
        cases h3
    · intro hc
      exact hI.cancelDone hc
    · exact hI.headPersona
  | startWorker h =>
    exact inv_phase_update hI .top s.shutdownSet s.shutdownPhase hI.drained
      (fun hc => nomatch hc)
  | checkStop h h09 =>
    exact inv_phase_update hI .exited s.shutdownSet s.shutdownPhase hI.drained
      (fun hc => nomatch hc)
  | checkGo h hs0 =>
    exact inv_phase_update hI .waiting s.shutdownSet s.shutdownPhase hI.drained
      (fun hc => nomatch hc)
  | proc m rest reply stream h hq =>
    exact inv_proc_aux hI m rest hq
      (process_message avail s.transcript m reply stream).transcript
      (process_message avail s.transcript m reply stream).uncaught.isNone
      (process_message_extends avail s.transcript m reply stream)
  | shut h =>
    refine inv_phase_update hI s.workerPhase true .joining ?_ ?_
    · rintro (h2 | h2) <;> cases h2
    · intro hc
      have h3 := hI.cancelDone hc
      rw [h] at h3
      cases h3
  | join h h0 =>
    refine inv_phase_update hI s.workerPhase s.shutdownSet .joined ?_ ?_
    · intro _
      have h2 := hI.unfin
      rw [h0] at h2
      constructor
      · cases hqn : s.queued with
        | nil => rfl
        | cons a t =>
          rw [hqn] at h2
          simp only [List.length_cons] at h2
          omega
      · omega
    · intro hc
      have h3 := hI.cancelDone hc
      rw [h] at h3
      cases h3
  | cancel h =>
    exact inv_phase_update hI (cancelPhase s.workerPhase) s.shutdownSet .done
      (fun _ => hI.drained (Or.inl h)) (fun _ => rfl)

/-- Every reachable configuration satisfies the invariant. -/
theorem reachable_inv {avail : String → Option ToolFn} {s : St}
    (h : Reachable avail s) : Inv s := by
  induction h with
  | init => exact inv_init
  | step _ hs ih => exact inv_step ih hs

/-! ## Specification-side descriptions of the tool-call loop

These two functions describe, by a different recursion, what the loop of
`detect_tool` actually computes; relating them to `runToolCalls` gives a
non-circular account of its behaviour. -/

/-- The messages produced by the loop when no callable raises: one `tool`
message per directive whose tool is registered and whose callable returns,
in emission order; directives of unregistered tools contribute nothing. -/
def execMessages (avail : String → Option ToolFn) (tcs : List ToolCall) : List Message :=
  tcs.filterMap (fun tc =>
    match avail tc.function.name with
    | none => none
    | some f =>
      match f tc.function.arguments with
      | .ok output => some (Message.mk "tool" (pyStr output) [])
      | .error _ => none)

/-- The first exception raised by a looked-up callable while walking the
directives in order, if any. -/
def firstCallError (avail : String → Option ToolFn) : List ToolCall → Option String
  | [] => none
  | tc :: rest =>
    match avail tc.function.name with
    | none => firstCallError avail rest
    | some f =>
      match f tc.function.arguments with
      | .error e => some e
      | .ok _ => firstCallError avail rest

/-- `runToolCalls` computes exactly: abort with the first raised exception, or
collect `execMessages` after the accumulator. -/
theorem runToolCalls_eq (avail : String → Option ToolFn) (tcs : List ToolCall)
    (acc : List Message) :
    runToolCalls avail tcs acc =
      match firstCallError avail tcs with
      | some e => .error e
      | none => .ok (acc ++ execMessages avail tcs) := by
  induction tcs generalizing acc with
  | nil => simp [runToolCalls, firstCallError, execMessages]
  | cons tc rest ih =>
    cases havail : avail tc.function.name with
    | none =>
      simp [runToolCalls, firstCallError, execMessages, List.filterMap_cons, havail, ih]
    | some f =>
      cases hf : f tc.function.arguments with
      | error e =>
        simp [runToolCalls, firstCallError, havail, hf]
      | ok v =>
        simp only [runToolCalls, firstCallError, execMessages, List.filterMap_cons,
          havail, hf, ih]
        cases firstCallError avail rest with
        | some e => rfl
        | none => simp [execMessages]

/-- Full characterization of `detect_tool` on a reply without the INFO_REQ
marker: the first raised callable exception, else the serialization failure of
the result logging when at least one message was produced, else the empty list. -/
theorem detect_tool_ok_eq (avail : String → Option ToolFn) (ui : String)
    (r : ChatReply) (hno : contentHasInfoReq r.content = false) :
    detect_tool avail ui (.ok r) =
      match firstCallError avail r.tool_calls with
      | some e => [Message.mk "tool" e []]
      | none =>
        match execMessages avail r.tool_calls with
        | [] => []
        | _ :: _ => [Message.mk "tool" jsonNotSerializableText []] := by
  simp only [detect_tool, hno, Bool.false_eq_true, if_false, runToolCalls_eq]
  cases firstCallError avail r.tool_calls with
  | some e => rfl
  | none =>
    simp only [List.nil_append]
    cases execMessages avail r.tool_calls with
    | nil => rfl
    | cons x xs => rfl

/-! ## Concrete fixtures used by witnesses and counterexamples -/

/-- A network model for `get_weather` on which every request fails; which model
is used is irrelevant to every claim. -/
def demoNet : Args → Except String PyVal := fun _ => .error "network unavailable"

/-- The registry built by client.py `main()`:
`tools={"add_numbers": add_numbers, "get_weather": get_weather}`,
parametric in the network model behind `get_weather`. -/
def clientTools (net : Args → Except String PyVal) : String → Option ToolFn :=
  fun name =>
    if name = "add_numbers" then some add_numbers_callable
    else if name = "get_weather" then some (get_weather_callable net) else none

/-- The client registry over the failing network model. -/
def demoTools : String → Option ToolFn := clientTools demoNet

/-- A classification reply with no marker and no directives. -/
def noToolReply : ChatReply := ⟨"assistant", some "NO_TOOL", []⟩

/-- The `add_numbers(first=1, second=1)` directive. -/
def addCall : ToolCall := ⟨⟨"add_numbers", [("first", .int 1), ("second", .int 1)]⟩⟩

/-- A reply carrying exactly the `add_numbers(first=1, second=1)` directive. -/
def addReply : ChatReply := ⟨"assistant", some "", [addCall]⟩

/-- A reply whose single directive names a tool absent from the registry. -/
def missingToolReply : ChatReply :=
  ⟨"assistant", some "calling a tool", [⟨⟨"multiply", [("a", .int 2)]⟩⟩]⟩

/-- A reply carrying the INFO_REQ marker together with a directive. -/
def infoReqReply : ChatReply := ⟨"assistant", some "INFO_REQ: need city name", [addCall]⟩

/-- A reply whose directive reaches `add_numbers` with a mismatched keyword. -/
def badAddReply : ChatReply := ⟨"assistant", some "", [⟨⟨"add_numbers", [("x", .int 1)]⟩⟩]⟩

/-! A concrete run of the session: start the worker, enqueue one utterance,
process it, then shut down. -/

def exS1 : St := { initSt with workerPhase := .top }

def exS2 : St := { exS1 with workerPhase := .waiting }

def exS3 : St := enqSt exS2 "hello"

def exS4 : St := procSt demoTools exS3 "hello" [] (.ok noToolReply) (.ok ["hi"])

def exS5 : St := { exS4 with shutdownSet := true, shutdownPhase := .joining }

def exS6 : St := { exS5 with shutdownPhase := .joined }

def exS7 : St :=
  { exS6 with shutdownPhase := .done, workerPhase := cancelPhase exS6.workerPhase }

theorem exReach4 : Reachable demoTools exS4 :=
  .step (.step (.step (.step .init (.startWorker initSt rfl))
    (.checkGo exS1 rfl rfl)) (.enq exS2 "hello" rfl))
    (.proc exS3 "hello" [] (.ok noToolReply) (.ok ["hi"]) rfl rfl)

theorem exReach7 : Reachable demoTools exS7 :=
  .step (.step (.step exReach4 (.shut exS4 rfl)) (.join exS5 rfl rfl))
    (.cancel exS6 rfl)

/-! ## The claims -/

/-- C1: if shutdown is invoked after a sequence of messages has been enqueued,
the consumer task is cancelled — and shutdown returns — only after the FIFO
queue has been fully drained and every previously enqueued message has been
fully processed by a completed worker iteration: in every reachable
configuration in which the worker has been cancelled or shutdown has returned,
the queue is empty, the arrival sequence equals the handled sequence, and no
handled message was aborted. -/
theorem claim_C1_drain_before_cancel (avail : String → Option ToolFn) (s : St)
    (h : Reachable avail s)
    (hc : s.workerPhase = .cancelled ∨ s.shutdownPhase = .done) :
    s.queued = [] ∧ s.enqueued = s.handled.map Prod.fst ∧
      ∀ p ∈ s.handled, p.2 = true := by
  have hI := reachable_inv h
  have hdone : s.shutdownPhase = .done := by
    rcases hc with hc | hc
    · exact hI.cancelDone hc
    · exact hc
  obtain ⟨hq, hf⟩ := hI.drained (Or.inr hdone)
  refine ⟨hq, ?_, failedCount_zero_all hf⟩
  rw [hI.fifo, hq, List.append_nil]

theorem claim_C1_witness :
    exS7.queued = [] ∧ exS7.enqueued = exS7.handled.map Prod.fst ∧
      ∀ p ∈ exS7.handled, p.2 = true :=
  claim_C1_drain_before_cancel demoTools exS7 exReach7 (Or.inr rfl)

/-- C7: utterances are dequeued and handled in exactly their enqueue order
(the arrival list always splits as handled-prefix plus queue), the primary-model
call of an iteration is always preceded by that iteration's detector call, and
the i-th dequeue happens only after exactly i earlier iterations finished — so
one message is fully handled before the next is dequeued. -/
theorem claim_C7_fifo_ordering (avail : String → Option ToolFn) (s : St)
    (h : Reachable avail s) :
    s.enqueued = s.handled.map Prod.fst ++ s.queued ∧
    (∀ i m t, List.IsSuffix (Ev.model i m :: t) s.trace → Ev.detect i m ∈ t) ∧
    (∀ i m t, List.IsSuffix (Ev.deq i m :: t) s.trace → finCount t = i) :=
  have hI := reachable_inv h
  ⟨hI.fifo, hI.dbm, hI.daf⟩

theorem claim_C7_witness :
    exS4.enqueued = exS4.handled.map Prod.fst ++ exS4.queued ∧
    Ev.detect 0 "hello" ∈ [Ev.detect 0 "hello", Ev.deq 0 "hello", Ev.enq "hello"] ∧
    finCount [Ev.enq "hello"] = 0 := by
  have h := claim_C7_fifo_ordering demoTools exS4 exReach4
  exact ⟨h.1,
    h.2.1 0 "hello" _ ⟨[Ev.fin 0 "hello" true], rfl⟩,
    h.2.2 0 "hello" _
      ⟨[Ev.fin 0 "hello" true, Ev.model 0 "hello", Ev.detect 0 "hello"], rfl⟩⟩

/-- C8: in every reachable configuration the transcript is non-empty and its
first element is the single initial system (persona) message, and every step of
the session only appends messages to the transcript, never modifying or
removing existing ones. -/
theorem claim_C8_transcript_append_only (avail : String → Option ToolFn) :
    (∀ s, Reachable avail s →
      s.transcript ≠ [] ∧ s.transcript.head? = some systemPersona) ∧
    (∀ s s', Step avail s s' → ∃ d, s'.transcript = s.transcript ++ d) := by
  constructor
  · intro s h
    have hp := (reachable_inv h).headPersona
    refine ⟨?_, hp⟩
    intro hnil
    rw [hnil] at hp
    cases hp
  · intro s s' hs
    cases hs with
    | enq m h => exact ⟨[], (List.append_nil _).symm⟩
    | startWorker h => exact ⟨[], (List.append_nil _).symm⟩
    | checkStop h hs0 => exact ⟨[], (List.append_nil _).symm⟩
    | checkGo h hs0 => exact ⟨[], (List.append_nil _).symm⟩
    | proc m rest reply stream h hq =>
      exact process_message_extends avail s.transcript m reply stream
    | shut h => exact ⟨[], (List.append_nil _).symm⟩
    | join h h0 => exact ⟨[], (List.append_nil _).symm⟩
    | cancel h => exact ⟨[], (List.append_nil _).symm⟩

theorem claim_C8_witness :
    exS4.transcript.head? = some systemPersona ∧
    (∃ d, exS1.transcript = initSt.transcript ++ d) :=
  ⟨((claim_C8_transcript_append_only demoTools).1 exS4 exReach4).2,
   (claim_C8_transcript_append_only demoTools).2 initSt exS1 (.startWorker initSt rfl)⟩

/-- C3: whenever the primary-model streaming call raises — before or mid-stream
— the transcript after `process_message` returns is exactly what it was
immediately before the call (for any transcript `T` at the call site, and in
particular `cm ++ [user]` for the reachable empty-detection runs), no partial
or empty assistant message is appended, the error is logged as a process-level
error, and no exception escapes, so the session keeps accepting messages. -/
theorem claim_C3_primary_error_transcript (avail : String → Option ToolFn)
    (cm T : List Message) (m : String) (reply : Except String ChatReply)
    (chunks : List String) (e : String)
    (hdet : detect_tool avail m reply = []) :
    runChat T (.raise chunks e) =
      { transcript := T, uncaught := none, logged := some (processErrText e) } ∧
    process_message avail cm m reply (.raise chunks e) =
      { transcript := cm ++ [Message.mk "user" m []], uncaught := none,
        logged := some (processErrText e) } := by
  refine ⟨rfl, ?_⟩
  rw [process_message_of_detect_nil cm _ hdet]
  rfl

theorem claim_C3_witness :
    process_message demoTools [systemPersona] "hi" (.ok noToolReply)
        (.raise ["midchunk"] "boom") =
      { transcript := [systemPersona] ++ [Message.mk "user" "hi" []],
        uncaught := none, logged := some (processErrText "boom") } :=
  (claim_C3_primary_error_transcript demoTools [systemPersona] [] "hi"
    (.ok noToolReply) ["midchunk"] "boom" rfl).2

/-- C4: `execute_tool` never raises, for every tool name and argument mapping:
its total return type and the three exhaustive cases — unknown name gives the
descriptive not-found result, a raising callable (including keyword-binding
mismatches, which surface as the callable's error) gives the descriptive
execution-failure result containing the cause, and a returning callable gives
its value. -/
theorem claim_C4_execute_tool_total (avail : String → Option ToolFn)
    (tool_name : String) (kwargs : Args) :
    (avail tool_name = none →
      execute_tool avail tool_name kwargs =
        .str ("Error: Tool \x27" ++ tool_name ++ "\x27 not found.")) ∧
    (∀ f e, avail tool_name = some f → f kwargs = .error e →
      execute_tool avail tool_name kwargs =
        .str ("Error executing tool \x27" ++ tool_name ++ "\x27: " ++ e)) ∧
    (∀ f v, avail tool_name = some f → f kwargs = .ok v →
      execute_tool avail tool_name kwargs = v) := by
  refine ⟨?_, ?_, ?_⟩
  · intro h
    simp [execute_tool, h]
  · intro f e hf he
    simp [execute_tool, hf, he]
  · intro f v hf hv
    simp [execute_tool, hf, hv]

theorem claim_C4_witness :
    execute_tool demoTools "unknown_tool" [] =
      .str ("Error: Tool \x27" ++ "unknown_tool" ++ "\x27 not found.") ∧
    execute_tool demoTools "add_numbers" [] =
      .str ("Error executing tool \x27" ++ "add_numbers" ++ "\x27: " ++
        addNumbersBindError) :=
  ⟨(claim_C4_execute_tool_total demoTools "unknown_tool" []).1 rfl,
   (claim_C4_execute_tool_total demoTools "add_numbers" []).2.1 add_numbers_callable
     addNumbersBindError rfl rfl⟩

/-- C5: whenever the classification reply's free text contains the INFO_REQ
marker anywhere, `detect_tool` returns exactly that reply as a single message
(role, content and directives verbatim), and no tool callable is executed —
the result does not depend on the registry at all, even when the reply also
carries tool-call directives. -/
theorem claim_C5_inforeq_short_circuit (avail avail2 : String → Option ToolFn)
    (ui : String) (r : ChatReply) (c : String)
    (hc : r.content = some c) (hfind : strHasSub c "INFO_REQ" = true) :
    detect_tool avail ui (.ok r) = [Message.mk r.role c r.tool_calls] ∧
    detect_tool avail ui (.ok r) = detect_tool avail2 ui (.ok r) := by
  have hne : (c == "") = false := by
    cases hcc : c == "" with
    | false => rfl
    | true =>
      have hceq : c = "" := eq_of_beq hcc
      rw [hceq] at hfind
      exact absurd hfind (by decide)
  have hinfo : contentHasInfoReq r.content = true := by
    rw [hc]
    simp [contentHasInfoReq, hne, hfind]
  have h1 : detect_tool avail ui (.ok r) = [Message.mk r.role c r.tool_calls] := by
    simp [detect_tool, hc, contentHasInfoReq, hne, hfind]
  have h2 : detect_tool avail2 ui (.ok r) = [Message.mk r.role c r.tool_calls] := by
    simp [detect_tool, hc, contentHasInfoReq, hne, hfind]
  exact ⟨h1, h1.trans h2.symm⟩

theorem claim_C5_witness :
    detect_tool demoTools "what is the weather" (.ok infoReqReply) =
      [Message.mk infoReqReply.role "INFO_REQ: need city name" infoReqReply.tool_calls] ∧
    detect_tool demoTools "what is the weather" (.ok infoReqReply) =
      detect_tool (fun _ => none) "what is the weather" (.ok infoReqReply) :=
  claim_C5_inforeq_short_circuit demoTools (fun _ => none) "what is the weather"
    infoReqReply "INFO_REQ: need city name" rfl (by decide)

/-- C6: every exception inside detection is caught locally and converted into
exactly one synthetic `tool`-role message carrying the error text, and
`detect_tool` (being a total function) never propagates an exception: a raising
classification call yields the one-message error result, and so does a raising
tool callable reached during detection. -/
theorem claim_C6_detector_error_recovery (avail : String → Option ToolFn)
    (ui e : String) (r : ChatReply)
    (hno : contentHasInfoReq r.content = false)
    (hrc : runToolCalls avail r.tool_calls [] = .error e) :
    detect_tool avail ui (.error e) = [Message.mk "tool" e []] ∧
    (detect_tool avail ui (.error e)).length = 1 ∧
    detect_tool avail ui (.ok r) = [Message.mk "tool" e []] := by
  refine ⟨rfl, rfl, ?_⟩
  simp [detect_tool, hno, hrc]

theorem claim_C6_witness :
    detect_tool demoTools "hi" (.error addNumbersBindError) =
      [Message.mk "tool" addNumbersBindError []] ∧
    (detect_tool demoTools "hi" (.error addNumbersBindError)).length = 1 ∧
    detect_tool demoTools "hi" (.ok badAddReply) =
      [Message.mk "tool" addNumbersBindError []] :=
  claim_C6_detector_error_recovery demoTools "hi" addNumbersBindError badAddReply
    rfl rfl

/-- C2 counterexample: a reply carrying exactly one tool-call directive that
names a tool absent from the client registry makes `detect_tool` return zero
messages — the directive is silently dropped instead of yielding one
descriptive-failure message per directive as the claim states. -/
theorem claim_C2_counterexample :
    missingToolReply.tool_calls.length = 1 ∧
    demoTools "multiply" = none ∧
    detect_tool demoTools "multiply 2 by 3" (.ok missingToolReply) = [] :=
  ⟨rfl, rfl, rfl⟩

/-- C2 amended: on a reply without the INFO_REQ marker, `detect_tool` resolves
the directives in order directly through the registry mapping (not through
`execute_tool`): a directive naming an unregistered tool is silently skipped;
if some looked-up callable raises, the whole detection collapses to a single
`tool` message carrying that error text; otherwise, when at least one message
was produced, the result logging's `json.dumps` raises and detection returns a
single `tool` message carrying the serialization error; only a produced-message
list that is empty is returned as such. -/
theorem claim_C2_amended (avail : String → Option ToolFn) (ui : String) (r : ChatReply)
    (hno : contentHasInfoReq r.content = false) :
    (∀ e, firstCallError avail r.tool_calls = some e →
        detect_tool avail ui (.ok r) = [Message.mk "tool" e []]) ∧
    (firstCallError avail r.tool_calls = none →
      (execMessages avail r.tool_calls = [] → detect_tool avail ui (.ok r) = []) ∧
      (∀ x xs, execMessages avail r.tool_calls = x :: xs →
          detect_tool avail ui (.ok r) =
            [Message.mk "tool" jsonNotSerializableText []])) := by
  rw [detect_tool_ok_eq avail ui r hno]
  refine ⟨?_, ?_⟩
  · intro e he
    rw [he]
  · intro hn
    rw [hn]
    constructor
    · intro hm
      rw [hm]
    · intro x xs hm
      rw [hm]

theorem claim_C2_witness :
    detect_tool demoTools "add 1 and 1" (.ok addReply) =
      [Message.mk "tool" jsonNotSerializableText []] ∧
    detect_tool demoTools "mismatch" (.ok badAddReply) =
      [Message.mk "tool" addNumbersBindError []] :=
  ⟨((claim_C2_amended demoTools "add 1 and 1" addReply rfl).2 rfl).2
      (Message.mk "tool" "2" []) [] rfl,
   (claim_C2_amended demoTools "mismatch" badAddReply rfl).1 addNumbersBindError rfl⟩

/-- C9: evaluating the code at the claimed input.  `add_numbers` does return
the exact sum, and the loop of `detect_tool` does build the single tool message
with content "2" for the directive `add_numbers(first=1, second=1)` — but the
result logging (`json.dumps` over the ollama `Message` list) raises, so what
`detect_tool` actually returns for that reply is one `tool` message carrying
the serialization-error text, not the message with content "2" the claim (and
the spec) state. -/
theorem claim_C9_add_numbers_destroyed (net : Args → Except String PyVal) :
    add_numbers 1 1 = 2 ∧
    execMessages (clientTools net) addReply.tool_calls = [Message.mk "tool" "2" []] ∧
    detect_tool (clientTools net) "add 1 and 1" (.ok addReply) =
      [Message.mk "tool" jsonNotSerializableText []] ∧
    jsonNotSerializableText ≠ "2" :=
  ⟨rfl, rfl, rfl, by decide⟩

/-- C10 counterexample: with a detector and manager configured and a
no-detection reply, client.py's `process_message` completes without raising
(appending user and assistant messages), while client2.py's raises the
unbound-local error for `final_prompt` after appending only the user message —
the two variants neither append the same sequence nor both complete. -/
theorem claim_C10_counterexample :
    (process_message demoTools [systemPersona] "hello" (.ok noToolReply)
        (.ok ["hi"])).uncaught = none ∧
    (process_message2 demoTools true [systemPersona] "hello" (.ok noToolReply)
        (.ok ["hi"])).uncaught = some finalPromptErrText ∧
    (process_message demoTools [systemPersona] "hello" (.ok noToolReply)
        (.ok ["hi"])).transcript.length = 3 ∧
    (process_message2 demoTools true [systemPersona] "hello" (.ok noToolReply)
        (.ok ["hi"])).transcript.length = 2 :=
  ⟨rfl, rfl, rfl, rfl⟩

/-- C10 amended: the two variants agree only on appending the user message
first.  With detector and manager configured, client2.py's `process_message`
always raises before reaching the primary model — the unbound `final_prompt`
when detection yields no messages, the undefined `tool_output` otherwise (after
appending every detection message) — while client.py's `process_message`
reaches the primary model when detection yields no messages (completing without
raising) and raises the `Message` subscription `KeyError` after appending only
the first detection message otherwise. -/
theorem claim_C10_amended (avail : String → Option ToolFn) (cm : List Message)
    (m : String) (reply : Except String ChatReply) (stream : StreamResult) :
    (process_message2 avail true cm m reply stream).transcript =
      (cm ++ [Message.mk "user" m []]) ++ detect_tool avail m reply ∧
    (process_message2 avail true cm m reply stream).uncaught =
      some (if (detect_tool avail m reply).isEmpty then finalPromptErrText
            else toolOutputErrText) ∧
    (detect_tool avail m reply = [] →
      process_message avail cm m reply stream =
        runChat (cm ++ [Message.mk "user" m []]) stream ∧
      (process_message avail cm m reply stream).uncaught = none) ∧
    (∀ x xs, detect_tool avail m reply = x :: xs →
      process_message avail cm m reply stream =
        { transcript := cm ++ [Message.mk "user" m [], x],
          uncaught := some msgKeyErrText, logged := none }) := by
  refine ⟨?_, ?_, ?_, ?_⟩
  · cases hd : detect_tool avail m reply with
    | nil => simp [process_message2, hd]
    | cons x xs => simp [process_message2, hd]
  · cases hd : detect_tool avail m reply with
    | nil => simp [process_message2, hd]
    | cons x xs => simp [process_message2, hd]
  · intro hd
    refine ⟨process_message_of_detect_nil cm stream hd, ?_⟩
    rw [process_message_of_detect_nil cm stream hd]
    exact runChat_uncaught _ _
  · intro x xs hd
    exact process_message_of_detect_cons cm stream hd

theorem claim_C10_witness :
    process_message demoTools [systemPersona] "hello" (.ok noToolReply) (.ok ["hi"]) =
      runChat ([systemPersona] ++ [Message.mk "user" "hello" []]) (.ok ["hi"]) ∧
    (process_message2 demoTools true [systemPersona] "hello" (.ok noToolReply)
        (.ok ["hi"])).uncaught = some finalPromptErrText := by
  constructor
  · exact ((claim_C10_amended demoTools [systemPersona] "hello" (.ok noToolReply)
      (.ok ["hi"])).2.2.1 rfl).1
  · exact (claim_C10_amended demoTools [systemPersona] "hello" (.ok noToolReply)
      (.ok ["hi"])).2.1

end Agent
